import Mathlib

/-!
Verification development for the OpenHouseDesk follow-up campaign engine.

The definitions below are a shallow embedding of:
  * `get_eligible_visitors` from `database-enhanced-forms.sql`;
  * `replaceTemplateVariables`, `logFollowUp` and the `serve` handler from
    `supabase/functions/send-follow-up/index.ts`;
  * `AVAILABLE_TEMPLATE_VARIABLES` from `src/lib/validations.ts`.

SQL `NULL` and JS `null`/`undefined` are modelled with `Option`; uuids are
modelled as `Nat` identifiers; the external transports and the delivery-log
insert are modelled as boolean oracles (success/failure per visitor and
channel).
-/

namespace OHD

/-- A row of the `visitors` table (columns used by the follow-up engine). -/
structure Visitor where
  id : Nat
  name : Option String
  email : Option String
  phone : Option String
  property_id : Option Nat
deriving Repr, DecidableEq

/-- A row of the `properties` table (columns used by the follow-up engine). -/
structure Property where
  id : Nat
  name : Option String
  address : Option String
deriving Repr, DecidableEq

/-- A row of the `feedback` table.  `interested BOOLEAN DEFAULT FALSE` is
nullable, hence `Option Bool`. -/
structure Feedback where
  id : Nat
  visitor_id : Nat
  interested : Option Bool
deriving Repr, DecidableEq

/-- A row of the `admins` table (columns used by the edge function). -/
structure Admin where
  id : Nat
  name : Option String
  email : Option String
  phone : Option String
deriving Repr, DecidableEq

/-- A row of the `follow_up_campaigns` table (columns used by the engine). -/
structure Campaign where
  id : Nat
  admin_id : Nat
  property_id : Option Nat
  message_type : String
  trigger_condition : String
  email_subject : Option String
  email_template : Option String
  email_from_name : Option String
  sms_template : Option String
deriving Repr, DecidableEq

/-- A row of the `unsubscribes` table. -/
structure Unsubscribe where
  id : Nat
  email : Option String
  phone : Option String
  unsubscribe_type : String
deriving Repr, DecidableEq

/-- A row of the `follow_up_logs` table (columns written by `logFollowUp`).
`campaign_id` is nullable in the schema (`ON DELETE SET NULL`). -/
structure FollowUpLog where
  visitor_id : Nat
  campaign_id : Option Nat
  property_id : Option Nat
  admin_id : Option Nat
  message_type : String
  recipient_email : Option String
  recipient_phone : Option String
  subject : Option String
  message_content : String
  status : String
  external_id : Option String
  error_message : Option String
deriving Repr, DecidableEq

/-- The relational store, as visible to the follow-up engine. -/
structure DB where
  visitors : List Visitor
  properties : List Property
  feedback : List Feedback
  unsubscribes : List Unsubscribe
  campaigns : List Campaign
  admins : List Admin
  logs : List FollowUpLog
deriving Repr, DecidableEq

/-- SQL equality on nullable text: `NULL = x` is never true. -/
def sqlEqStr : Option String → Option String → Bool
  | some a, some b => a == b
  | _, _ => false

/-- SQL equality on nullable ids: `NULL = x` is never true. -/
def sqlEqNat : Option Nat → Option Nat → Bool
  | some a, some b => a == b
  | _, _ => false

/-- The `unsubscribes` join condition of `get_eligible_visitors`:
`(u.email = v.email AND u.unsubscribe_type IN ('email','both')) OR
 (u.phone = v.phone AND u.unsubscribe_type IN ('sms','both'))`. -/
def unsubMatches (v : Visitor) (u : Unsubscribe) : Bool :=
  (sqlEqStr u.email v.email
    && (u.unsubscribe_type == "email" || u.unsubscribe_type == "both"))
  || (sqlEqStr u.phone v.phone
    && (u.unsubscribe_type == "sms" || u.unsubscribe_type == "both"))

/-- `LEFT JOIN follow_up_campaigns c ON c.id = campaign_id_param`. -/
def findCampaign (db : DB) (cid : Nat) : Option Campaign :=
  db.campaigns.find? (fun c => c.id == cid)

/-- `LEFT JOIN feedback f ON v.id = f.visitor_id` (first matching row). -/
def findFeedback (db : DB) (vid : Nat) : Option Feedback :=
  db.feedback.find? (fun f => f.visitor_id == vid)

/-- The `SELECT * FROM admins WHERE id = campaign.admin_id` lookup. -/
def findAdmin (db : DB) (aid : Nat) : Option Admin :=
  db.admins.find? (fun a => a.id == aid)

/-- The `property_id_param IS NULL OR v.property_id = property_id_param`
conjunct of `get_eligible_visitors`. -/
def propertyParamPass (pid : Option Nat) (v : Visitor) : Bool :=
  match pid with
  | none => true
  | some p => sqlEqNat v.property_id (some p)

/-- The `c.property_id IS NULL OR v.property_id = c.property_id` conjunct
(with `c` all-NULL when the campaign row is absent). -/
def campaignPropertyPass (c : Option Campaign) (v : Visitor) : Bool :=
  match c with
  | none => true
  | some c =>
    match c.property_id with
    | none => true
    | some p => sqlEqNat v.property_id (some p)

/-- The `CASE c.trigger_condition ... ELSE false END` conjunct of
`get_eligible_visitors` (`c.trigger_condition` is NULL when the campaign
row is absent, so every `WHEN` fails and the `ELSE false` applies). -/
def triggerPass (c : Option Campaign) (f : Option Feedback) : Bool :=
  match c with
  | none => false
  | some c =>
    if c.trigger_condition == "interested" then
      match f with
      | some fb => fb.interested.getD false
      | none => false
    else if c.trigger_condition == "no_feedback" then f.isNone
    else if c.trigger_condition == "all" then true
    else if c.trigger_condition == "manual" then true
    else false

/-- The `NOT EXISTS (... fl.status NOT IN ('failed'))` conjunct: does a
delivery-log row for this visitor and campaign with a non-`failed` status
exist? -/
def hasNonFailedLog (db : DB) (cid : Nat) (v : Visitor) : Bool :=
  db.logs.any (fun l =>
    l.visitor_id == v.id && l.campaign_id == some cid && !(l.status == "failed"))

/-- The `WHERE` clause of `get_eligible_visitors`, per visitor. -/
def eligibleVisitor (db : DB) (cid : Nat) (pid : Option Nat) (v : Visitor) : Bool :=
  propertyParamPass pid v
  && campaignPropertyPass (findCampaign db cid) v
  && !(db.unsubscribes.any (unsubMatches v))
  && triggerPass (findCampaign db cid) (findFeedback db v.id)
  && !(hasNonFailedLog db cid v)

/-- `get_eligible_visitors(campaign_id_param, property_id_param)` from
`database-enhanced-forms.sql`, returning the qualifying visitor rows. -/
def get_eligible_visitors (db : DB) (cid : Nat) (pid : Option Nat) : List Visitor :=
  db.visitors.filter (eligibleVisitor db cid pid)

/-- The left-brace character, used to build `\x7b\x7bname\x7d\x7d` patterns. -/
def lbrace : Char := Char.ofNat 123

/-- The right-brace character. -/
def rbrace : Char := Char.ofNat 125

/-- The character list of the placeholder pattern for a variable name,
i.e. the literal text matched by `new RegExp` in
`replaceTemplateVariables` (the variable names in use contain no regex
metacharacters, so the regex matches exactly this literal). -/
def varPattern (k : String) : List Char :=
  lbrace :: lbrace :: (k.toList ++ [rbrace, rbrace])

/-- The placeholder pattern as a string. -/
def patStr (k : String) : String := String.mk (varPattern k)

/-- One step of JavaScript global string replacement: scan left to right;
at a match emit the replacement and resume after the matched text (the
replacement itself is not rescanned).  `fuel` bounds the recursion; it is
always called with `fuel ≥` the length of the scanned list, and each step
consumes at least one character, so the `fuel = 0` fallback is never hit. -/
def replaceAllGo (pat rep : List Char) : Nat → List Char → List Char
  | _, [] => []
  | 0, s => s
  | Nat.succ fuel, c :: rest =>
    if pat.isPrefixOf (c :: rest) && !pat.isEmpty then
      rep ++ replaceAllGo pat rep fuel (rest.drop (pat.length - 1))
    else
      c :: replaceAllGo pat rep fuel rest

/-- `s.replace(new RegExp(pat, 'g'), rep)` for a literal pattern. -/
def replaceAll (s pat rep : List Char) : List Char :=
  replaceAllGo pat rep s.length s

/-- `replaceTemplateVariables` from `send-follow-up/index.ts`: for each
mapping entry in order, globally replace `\x7b\x7bkey\x7d\x7d` by the
value (`value || ''` renders a null value as the empty string). -/
def replaceTemplateVariables (template : String)
    (vmap : List (String × Option String)) : String :=
  String.mk (vmap.foldl
    (fun acc kv => replaceAll acc (varPattern kv.1) (kv.2.getD "").toList)
    template.toList)

/-- Does the literal pattern occur anywhere in the list? -/
def hasMatch (pat : List Char) : List Char → Bool
  | [] => pat.isEmpty
  | c :: rest => pat.isPrefixOf (c :: rest) || hasMatch pat rest

/-- `AVAILABLE_TEMPLATE_VARIABLES` from `src/lib/validations.ts`. -/
def AVAILABLE_TEMPLATE_VARIABLES : List String :=
  ["visitor_name", "visitor_email", "visitor_phone", "property_name",
   "property_address", "property_type", "property_price", "admin_name",
   "admin_email", "admin_phone", "visit_date", "feedback_rating",
   "feedback_comments", "interested"]

/-- JavaScript truthiness of a nullable string (`null`, `undefined` and
`''` are falsy). -/
def truthy : Option String → Bool
  | none => false
  | some s => !(s == "")

/-- The request body of the edge function (`SendFollowUpRequest`). -/
structure Request where
  campaignId : Nat
  visitorIds : Option (List Nat)
  propertyId : Option Nat
  messageType : Option String
deriving Repr, DecidableEq

/-- Outcomes of the external transports and of the delivery-log insert,
per visitor id and channel: `emailOk v` is whether the email provider
reports success for visitor `v`, `emailErr v` its error text on failure,
`emailMsgId v` its message id on success; likewise for sms.  `logOk v ch`
is whether the `follow_up_logs` insert for visitor `v` on channel `ch`
succeeds. -/
structure Oracles where
  emailOk : Nat → Bool
  emailErr : Nat → String
  emailMsgId : Nat → Option String
  smsOk : Nat → Bool
  smsErr : Nat → String
  smsMsgId : Nat → Option String
  logOk : Nat → String → Bool

/-- `const effectiveMessageType = messageType || campaign.message_type`. -/
def effectiveType (req : Request) (camp : Campaign) : String :=
  match req.messageType with
  | none => camp.message_type
  | some s => if s == "" then camp.message_type else s

/-- The visitor list the handler iterates: the rpc result, additionally
filtered by `.in('visitor_id', visitorIds)` when `visitorIds` is present
and non-empty (`if (visitorIds && visitorIds.length > 0)`). -/
def selectVisitors (db : DB) (req : Request) : List Visitor :=
  match req.visitorIds with
  | some ids =>
    if 0 < ids.length then
      (get_eligible_visitors db req.campaignId req.propertyId).filter
        (fun v => ids.contains v.id)
    else get_eligible_visitors db req.campaignId req.propertyId
  | none => get_eligible_visitors db req.campaignId req.propertyId

/-- The `templateVariables` object built per visitor in the handler:
exactly six entries, sourced from the visitor row, its joined property
row, and the admin row. -/
def templateVars (db : DB) (adm : Admin) (v : Visitor) : List (String × Option String) :=
  let p : Option Property :=
    match v.property_id with
    | none => none
    | some pid => db.properties.find? (fun pr => pr.id == pid)
  [("visitor_name", v.name),
   ("property_name", p.bind (fun pr => pr.name)),
   ("property_address", p.bind (fun pr => pr.address)),
   ("admin_name", adm.name),
   ("admin_email", adm.email),
   ("admin_phone", adm.phone)]

/-- The email branch of the per-visitor loop: runs when the effective type
is `email` or `both` and the visitor has a truthy email; renders subject
and body with `campaign.email_subject || ''` / `campaign.email_template
|| ''`, calls the transport, and produces the `logFollowUp` row.  (The
handler's property-id fallback re-reads `visitors.property_id`, which in
this model is already `v.property_id`.) -/
def emailAttempt (db : DB) (camp : Campaign) (adm : Admin) (eff : String)
    (o : Oracles) (v : Visitor) : Option FollowUpLog :=
  if (eff == "email" || eff == "both") && truthy v.email then
    let vars := templateVars db adm v
    let subject := replaceTemplateVariables (camp.email_subject.getD "") vars
    let html := replaceTemplateVariables (camp.email_template.getD "") vars
    let ok := o.emailOk v.id
    some { visitor_id := v.id
           campaign_id := some camp.id
           property_id := v.property_id
           admin_id := some camp.admin_id
           message_type := "email"
           recipient_email := v.email
           recipient_phone := none
           subject := some subject
           message_content := html
           status := if ok then "sent" else "failed"
           external_id := if ok then o.emailMsgId v.id else none
           error_message := if ok then none else some (o.emailErr v.id) }
  else none

/-- The sms branch of the per-visitor loop: runs when the effective type
is `sms` or `both`, the visitor has a truthy phone, and the campaign has
a truthy sms template. -/
def smsAttempt (db : DB) (camp : Campaign) (adm : Admin) (eff : String)
    (o : Oracles) (v : Visitor) : Option FollowUpLog :=
  if (eff == "sms" || eff == "both") && truthy v.phone && truthy camp.sms_template then
    let vars := templateVars db adm v
    let content := replaceTemplateVariables (camp.sms_template.getD "") vars
    let ok := o.smsOk v.id
    some { visitor_id := v.id
           campaign_id := some camp.id
           property_id := v.property_id
           admin_id := some camp.admin_id
           message_type := "sms"
           recipient_email := none
           recipient_phone := v.phone
           subject := none
           message_content := content
           status := if ok then "sent" else "failed"
           external_id := if ok then o.smsMsgId v.id else none
           error_message := if ok then none else some (o.smsErr v.id) }
  else none

/-- The delivery-log rows a single visitor gives rise to, email branch
then sms branch. -/
def visitorAttempts (db : DB) (camp : Campaign) (adm : Admin) (eff : String)
    (o : Oracles) (v : Visitor) : List FollowUpLog :=
  (emailAttempt db camp adm eff o v).toList ++ (smsAttempt db camp adm eff o v).toList

/-- Running totals of the handler's visitor loop (`results` plus the
sequence of attempted `logFollowUp` inserts). -/
structure RunAcc where
  sent : Nat
  failed : Nat
  errors : List String
  attempted : List FollowUpLog
deriving Repr, DecidableEq

/-- The error string pushed onto `results.errors` for a failed attempt. -/
def attemptLabel (l : FollowUpLog) : String :=
  if l.message_type == "email" then
    "Email to " ++ l.recipient_email.getD "" ++ ": " ++ l.error_message.getD ""
  else
    "SMS to " ++ l.recipient_phone.getD "" ++ ": " ++ l.error_message.getD ""

/-- Record one attempt: the log insert is issued, then `results.sent` or
`results.failed` is incremented (and an error string pushed on failure). -/
def recordAttempt (acc : RunAcc) (l : FollowUpLog) : RunAcc :=
  if l.status == "sent" then
    { acc with sent := acc.sent + 1, attempted := acc.attempted ++ [l] }
  else
    { acc with failed := acc.failed + 1,
               errors := acc.errors ++ [attemptLabel l],
               attempted := acc.attempted ++ [l] }

/-- The body of `for (const visitor of visitors)`. -/
def processVisitor (db : DB) (camp : Campaign) (adm : Admin) (eff : String)
    (o : Oracles) (acc : RunAcc) (v : Visitor) : RunAcc :=
  (visitorAttempts db camp adm eff o v).foldl recordAttempt acc

/-- The JSON result of the handler.  `attempted` is the sequence of
`logFollowUp` insert attempts; `stored` is the subset whose insert
succeeded (`logFollowUp` only logs an insert error to the console and
returns normally, so a failed insert leaves no row and changes nothing
else). -/
structure DispatchResult where
  success : Bool
  error : Option String
  message : Option String
  sent : Nat
  failed : Nat
  errors : List String
  attempted : List FollowUpLog
  stored : List FollowUpLog
deriving Repr, DecidableEq

/-- The `serve` handler of `send-follow-up/index.ts`: load the campaign
(404-equivalent error if absent), load its admin, select the eligible
visitors, short-circuit on the empty set, otherwise run the per-visitor
loop and report aggregated counts.  All thrown errors surface as a
`success: false` response. -/
def serve (db : DB) (o : Oracles) (req : Request) : DispatchResult :=
  match findCampaign db req.campaignId with
  | none =>
    { success := false, error := some "Campaign not found", message := none,
      sent := 0, failed := 0, errors := [], attempted := [], stored := [] }
  | some camp =>
    match findAdmin db camp.admin_id with
    | none =>
      { success := false, error := some "Admin not found", message := none,
        sent := 0, failed := 0, errors := [], attempted := [], stored := [] }
    | some adm =>
      let visitors := selectVisitors db req
      if visitors.isEmpty then
        { success := true, error := none,
          message := some "No eligible visitors found",
          sent := 0, failed := 0, errors := [], attempted := [], stored := [] }
      else
        let acc := visitors.foldl
          (processVisitor db camp adm (effectiveType req camp) o)
          ⟨0, 0, [], []⟩
        { success := true, error := none,
          message := some "Follow-up messages processed",
          sent := acc.sent, failed := acc.failed, errors := acc.errors,
          attempted := acc.attempted,
          stored := acc.attempted.filter (fun l => o.logOk l.visitor_id l.message_type) }

/-- The store after a run: exactly the successfully inserted log rows are
appended. -/
def dbAfter (db : DB) (o : Oracles) (req : Request) : DB :=
  { db with logs := db.logs ++ (serve db o req).stored }

/-- Number of attempts whose log row carries status `sent` (the handler
increments `results.sent` exactly once per such attempt). -/
def countSent (ls : List FollowUpLog) : Nat :=
  (ls.filter (fun l => l.status == "sent")).length

/-- Same for status `failed`. -/
def countFailed (ls : List FollowUpLog) : Nat :=
  (ls.filter (fun l => !(l.status == "sent"))).length

/-- The store with one campaign's `message_type` column updated; used to
state that eligibility never reads the message type. -/
def setMessageType (db : DB) (cid : Nat) (mt : String) : DB :=
  { db with campaigns :=
      db.campaigns.map (fun c => if c.id == cid then { c with message_type := mt } else c) }

/-! ### Concrete rows used by witnesses and counterexamples -/

/-- Transports and log inserts that always succeed. -/
def oracleOk : Oracles :=
  ⟨fun _ => true, fun _ => "err", fun _ => some "mid",
   fun _ => true, fun _ => "serr", fun _ => some "sid",
   fun _ _ => true⟩

/-- Transports succeed, every log insert fails. -/
def oracleLogFail : Oracles := { oracleOk with logOk := fun _ _ => false }

def vAnn : Visitor := ⟨1, some "Ann", some "ann@x.com", some "555", some 10⟩

def vBob : Visitor := ⟨2, some "Bob", some "bob@x.com", some "556", some 10⟩

def vCarol : Visitor := ⟨3, some "Carol", some "carol@x.com", some "557", some 10⟩

def vNoPhone : Visitor := ⟨1, some "Ann", some "ann@x.com", none, some 10⟩

def pMaple : Property := ⟨10, some "Maple House", some "1 Maple St"⟩

def admAl : Admin := ⟨7, some "Al", some "al@x.com", some "111"⟩

def campBoth : Campaign :=
  ⟨5, 7, some 10, "both", "all", some "S", some "B", some "Team", some "T"⟩

def campSmsOnly : Campaign :=
  ⟨5, 7, some 10, "sms", "all", none, none, none, some "T"⟩

def campInterested : Campaign := { campBoth with trigger_condition := "interested" }

def campBogus : Campaign :=
  ⟨5, 7, some 10, "email", "bogus", some "S", some "B", none, none⟩

def campNoTpl : Campaign := ⟨5, 7, some 10, "email", "all", none, none, none, none⟩

def campVarEmail : Campaign :=
  ⟨5, 7, some 10, "email", "all", some "", some (patStr "visitor_email"), none, none⟩

def unsubEmailAnn : Unsubscribe := ⟨1, some "ann@x.com", none, "email"⟩

def logSentAnn : FollowUpLog :=
  ⟨1, some 5, some 10, some 7, "email", some "ann@x.com", none, some "s", "b", "sent",
   none, none⟩

def logFailedAnn : FollowUpLog :=
  ⟨1, some 5, some 10, some 7, "email", some "ann@x.com", none, some "s", "b", "failed",
   none, some "boom"⟩

/-- One eligible visitor, no unsubscribes, no prior logs. -/
def dbPlain : DB := ⟨[vAnn], [pMaple], [], [], [campBoth], [admAl], []⟩

def reqAuto : Request := ⟨5, none, none, none⟩

def c1DbSent : DB := ⟨[vAnn], [pMaple], [], [], [campBoth], [admAl], [logSentAnn]⟩

def c1DbFailed : DB := ⟨[vAnn], [pMaple], [], [], [campBoth], [admAl], [logFailedAnn]⟩

def c2DbBoth : DB := ⟨[vAnn], [pMaple], [], [unsubEmailAnn], [campBoth], [admAl], []⟩

def c2DbSms : DB := ⟨[vAnn], [pMaple], [], [unsubEmailAnn], [campSmsOnly], [admAl], []⟩

def c3Db : DB := ⟨[vAnn, vBob], [pMaple], [⟨100, 1, some true⟩], [], [campInterested], [admAl], []⟩

def c5Db : DB := ⟨[vAnn, vBob, vCarol], [pMaple], [], [], [campBoth], [admAl], []⟩

def c6Db : DB := ⟨[vAnn], [pMaple], [], [], [campVarEmail], [admAl], []⟩

def c7Db : DB := ⟨[vNoPhone], [pMaple], [], [], [campBoth], [admAl], []⟩

/-- A `both` campaign with no sms template configured. -/
def campBothNoSms : Campaign :=
  ⟨5, 7, some 10, "both", "all", some "S", some "B", some "Team", none⟩

/-- Ann (who has a phone) against the `both` campaign lacking an sms
template. -/
def c7DbNoSmsTpl : DB := ⟨[vAnn], [pMaple], [], [], [campBothNoSms], [admAl], []⟩

def c8DbBogus : DB := ⟨[vAnn], [pMaple], [], [], [campBogus], [admAl], []⟩

def c8DbNoTpl : DB := ⟨[vAnn], [pMaple], [], [], [campNoTpl], [admAl], []⟩

/-- The empty-content email row the handler writes for `campNoTpl`. -/
def c8LogEmpty : FollowUpLog :=
  ⟨1, some 5, some 10, some 7, "email", some "ann@x.com", none, some "", "", "sent",
   some "mid", none⟩

/-- The email row the handler writes for `campBoth` and Ann. -/
def c10LogSent : FollowUpLog :=
  ⟨1, some 5, some 10, some 7, "email", some "ann@x.com", none, some "S", "B", "sent",
   some "mid", none⟩

/-! ### Renderer lemmas -/

lemma replaceAllGo_eq_self (pat rep : List Char) :
    ∀ (s : List Char) (fuel : Nat), hasMatch pat s = false →
      replaceAllGo pat rep fuel s = s := by
  intro s
  induction s with
  | nil => intro fuel _; cases fuel <;> rfl
  | cons c rest ih =>
    intro fuel h
    rw [hasMatch, Bool.or_eq_false_iff] at h
    cases fuel with
    | zero => rfl
    | succ fuel =>
      rw [replaceAllGo, if_neg, ih fuel h.2]
      simp [h.1]

lemma replaceAll_eq_self (s pat rep : List Char) (h : hasMatch pat s = false) :
    replaceAll s pat rep = s :=
  replaceAllGo_eq_self pat rep s s.length h

lemma foldl_replace_eq_self :
    ∀ (vmap : List (String × Option String)) (s : List Char),
      (∀ kv ∈ vmap, hasMatch (varPattern kv.1) s = false) →
      vmap.foldl
        (fun acc kv => replaceAll acc (varPattern kv.1) (kv.2.getD "").toList)
        s = s := by
  intro vmap
  induction vmap with
  | nil => intro s _; rfl
  | cons kv rest ih =>
    intro s h
    rw [List.foldl_cons,
        replaceAll_eq_self s (varPattern kv.1) (kv.2.getD "").toList
          (h kv (List.mem_cons_self kv rest))]
    exact ih s (fun kv' hkv' => h kv' (List.mem_cons_of_mem kv hkv'))

/-! ### C4 and C9: the template renderer -/

/-- C4 counterexample: rendering `\x7b\x7bvisitor_name\x7d\x7d\x7b\x7bproperty_name\x7d\x7d`
with the empty mapping returns the template unchanged, not the empty
string: `replaceTemplateVariables` only substitutes names present in the
mapping, so a placeholder whose name is absent is left as literal text. -/
theorem c4_absent_placeholder_counterexample :
    replaceTemplateVariables (patStr "visitor_name" ++ patStr "property_name") [] =
      patStr "visitor_name" ++ patStr "property_name"
    ∧ ¬ (replaceTemplateVariables (patStr "visitor_name" ++ patStr "property_name") [] = "") :=
  ⟨rfl, by decide⟩

/-- C4 (amended): the renderer replaces each occurrence of a placeholder
whose name is present in the mapping, rendering a null value as the empty
string; placeholders whose name is absent from the mapping are left
unchanged (rendering with the empty mapping is the identity); rendering
`\x7b\x7bvisitor_name\x7d\x7d\x7b\x7bproperty_name\x7d\x7d` with Jane/Maple House
yields `JaneMaple House`, and with both names mapped to null yields the
empty string. -/
theorem c4_renderer_substitution :
    (∀ t : String, replaceTemplateVariables t [] = t)
    ∧ replaceTemplateVariables (patStr "visitor_name" ++ patStr "property_name")
        [("visitor_name", none), ("property_name", none)] = ""
    ∧ replaceTemplateVariables (patStr "visitor_name" ++ patStr "property_name")
        [("visitor_name", some "Jane"), ("property_name", some "Maple House")] =
        "JaneMaple House" :=
  ⟨fun _ => rfl, by decide, by decide⟩

/-- C9 counterexample: the renderer substitutes the mapping entries
sequentially, so a placeholder introduced by a substituted value IS
re-expanded by a later entry (`\x7b\x7ba\x7d\x7d` with a ↦ `\x7b\x7bb\x7d\x7d`, b ↦ X renders
to `X`), and rendering is not idempotent: with the entries in the other
order the output is `\x7b\x7bb\x7d\x7d`, and re-rendering that output yields `X`. -/
theorem c9_idempotence_counterexample :
    replaceTemplateVariables (patStr "a") [("a", some (patStr "b")), ("b", some "X")] = "X"
    ∧ replaceTemplateVariables (patStr "a") [("b", some "X"), ("a", some (patStr "b"))] =
        patStr "b"
    ∧ replaceTemplateVariables
        (replaceTemplateVariables (patStr "a") [("b", some "X"), ("a", some (patStr "b"))])
        [("b", some "X"), ("a", some (patStr "b"))] = "X"
    ∧ patStr "b" ≠ "X" :=
  ⟨by decide, by decide, by decide, by decide⟩

/-- C9 (amended): the renderer performs one global replacement per mapping
entry in entry order, so a placeholder introduced by an earlier entry's
value is expanded by a later entry in the same pass and re-rendering can
change the output; re-rendering does leave the output unchanged whenever
no mapping key's placeholder occurs in the rendered output. -/
theorem c9_conditional_idempotence :
    ∀ (t : String) (vmap : List (String × Option String)),
      (∀ kv ∈ vmap,
        hasMatch (varPattern kv.1) (replaceTemplateVariables t vmap).toList = false) →
      replaceTemplateVariables (replaceTemplateVariables t vmap) vmap =
        replaceTemplateVariables t vmap := by
  intro t vmap h
  have key := foldl_replace_eq_self vmap ((replaceTemplateVariables t vmap).toList) h
  show String.mk (vmap.foldl
    (fun acc kv => replaceAll acc (varPattern kv.1) (kv.2.getD "").toList)
    ((replaceTemplateVariables t vmap).toList)) = replaceTemplateVariables t vmap
  rw [key]
  rfl

/-- Witness for C9 (amended), at the template `Hello \x7b\x7bvisitor_name\x7d\x7d`
and the mapping visitor_name ↦ Jane. -/
theorem c9_witness :
    (∀ kv ∈ [("visitor_name", some "Jane")],
        hasMatch (varPattern kv.1)
          (replaceTemplateVariables ("Hello " ++ patStr "visitor_name")
            [("visitor_name", some "Jane")]).toList = false)
    ∧ replaceTemplateVariables
        (replaceTemplateVariables ("Hello " ++ patStr "visitor_name")
          [("visitor_name", some "Jane")])
        [("visitor_name", some "Jane")] =
      replaceTemplateVariables ("Hello " ++ patStr "visitor_name")
        [("visitor_name", some "Jane")] :=
  ⟨by decide, c9_conditional_idempotence _ _ (by decide)⟩

/-! ### Dispatch loop lemmas -/

lemma recordAttempt_attempted (acc : RunAcc) (l : FollowUpLog) :
    (recordAttempt acc l).attempted = acc.attempted ++ [l] := by
  unfold recordAttempt; split <;> rfl

lemma recordAttempt_sent (acc : RunAcc) (l : FollowUpLog) :
    (recordAttempt acc l).sent = acc.sent + (if l.status == "sent" then 1 else 0) := by
  unfold recordAttempt; split <;> simp_all

lemma foldl_recordAttempt_attempted :
    ∀ (ls : List FollowUpLog) (acc : RunAcc),
      (ls.foldl recordAttempt acc).attempted = acc.attempted ++ ls := by
  intro ls
  induction ls with
  | nil => intro acc; simp
  | cons l ls ih =>
    intro acc
    rw [List.foldl_cons, ih, recordAttempt_attempted]
    simp

lemma countSent_cons (l : FollowUpLog) (ls : List FollowUpLog) :
    countSent (l :: ls) = (if l.status == "sent" then 1 else 0) + countSent ls := by
  unfold countSent
  rw [List.filter_cons]
  split <;> simp <;> omega

lemma countSent_append (a b : List FollowUpLog) :
    countSent (a ++ b) = countSent a + countSent b := by
  unfold countSent
  rw [List.filter_append, List.length_append]

lemma foldl_recordAttempt_sent :
    ∀ (ls : List FollowUpLog) (acc : RunAcc),
      (ls.foldl recordAttempt acc).sent = acc.sent + countSent ls := by
  intro ls
  induction ls with
  | nil => intro acc; simp [countSent]
  | cons l ls ih =>
    intro acc
    rw [List.foldl_cons, ih, recordAttempt_sent, countSent_cons]
    omega

lemma processVisitor_attempted (db : DB) (camp : Campaign) (adm : Admin) (eff : String)
    (o : Oracles) (acc : RunAcc) (v : Visitor) :
    (processVisitor db camp adm eff o acc v).attempted =
      acc.attempted ++ visitorAttempts db camp adm eff o v :=
  foldl_recordAttempt_attempted _ _

lemma processVisitor_sent (db : DB) (camp : Campaign) (adm : Admin) (eff : String)
    (o : Oracles) (acc : RunAcc) (v : Visitor) :
    (processVisitor db camp adm eff o acc v).sent =
      acc.sent + countSent (visitorAttempts db camp adm eff o v) :=
  foldl_recordAttempt_sent _ _

lemma foldl_processVisitor_attempted (db : DB) (camp : Campaign) (adm : Admin)
    (eff : String) (o : Oracles) :
    ∀ (vs : List Visitor) (acc : RunAcc),
      (vs.foldl (processVisitor db camp adm eff o) acc).attempted =
        acc.attempted ++ vs.flatMap (visitorAttempts db camp adm eff o) := by
  intro vs
  induction vs with
  | nil => intro acc; simp
  | cons v vs ih =>
    intro acc
    rw [List.foldl_cons, ih, processVisitor_attempted, List.flatMap_cons,
        List.append_assoc]

lemma foldl_processVisitor_sent (db : DB) (camp : Campaign) (adm : Admin)
    (eff : String) (o : Oracles) :
    ∀ (vs : List Visitor) (acc : RunAcc),
      (vs.foldl (processVisitor db camp adm eff o) acc).sent =
        acc.sent + countSent (vs.flatMap (visitorAttempts db camp adm eff o)) := by
  intro vs
  induction vs with
  | nil => intro acc; simp [countSent]
  | cons v vs ih =>
    intro acc
    rw [List.foldl_cons, ih, processVisitor_sent, List.flatMap_cons, countSent_append]
    omega

/-! ### Characterization of the handler's result -/

lemma serve_found (db : DB) (o : Oracles) (req : Request) (camp : Campaign)
    (adm : Admin) (h1 : findCampaign db req.campaignId = some camp)
    (h2 : findAdmin db camp.admin_id = some adm) :
    serve db o req =
      if (selectVisitors db req).isEmpty then
        { success := true, error := none,
          message := some "No eligible visitors found",
          sent := 0, failed := 0, errors := [], attempted := [], stored := [] }
      else
        let acc := (selectVisitors db req).foldl
          (processVisitor db camp adm (effectiveType req camp) o) ⟨0, 0, [], []⟩
        { success := true, error := none,
          message := some "Follow-up messages processed",
          sent := acc.sent, failed := acc.failed, errors := acc.errors,
          attempted := acc.attempted,
          stored := acc.attempted.filter (fun l => o.logOk l.visitor_id l.message_type) } := by
  unfold serve
  split
  · next heq => rw [h1] at heq; cases heq
  · next camp' heq =>
    rw [h1] at heq
    cases Option.some.inj heq
    split
    · next heq2 => rw [h2] at heq2; cases heq2
    · next adm' heq2 =>
      rw [h2] at heq2
      cases Option.some.inj heq2
      rfl

lemma serve_attempted (db : DB) (o : Oracles) (req : Request) (camp : Campaign)
    (adm : Admin) (h1 : findCampaign db req.campaignId = some camp)
    (h2 : findAdmin db camp.admin_id = some adm) :
    (serve db o req).attempted =
      (selectVisitors db req).flatMap
        (visitorAttempts db camp adm (effectiveType req camp) o) := by
  rw [serve_found db o req camp adm h1 h2]
  by_cases he : (selectVisitors db req).isEmpty
  · rw [if_pos he]
    rw [List.isEmpty_iff] at he
    rw [he]
    rfl
  · rw [if_neg he]
    exact foldl_processVisitor_attempted db camp adm (effectiveType req camp) o _ _

lemma serve_sent_eq (db : DB) (o : Oracles) (req : Request) (camp : Campaign)
    (adm : Admin) (h1 : findCampaign db req.campaignId = some camp)
    (h2 : findAdmin db camp.admin_id = some adm) :
    (serve db o req).sent = countSent ((serve db o req).attempted) := by
  rw [serve_attempted db o req camp adm h1 h2, serve_found db o req camp adm h1 h2]
  by_cases he : (selectVisitors db req).isEmpty
  · rw [if_pos he]
    rw [List.isEmpty_iff] at he
    rw [he]
    rfl
  · rw [if_neg he]
    show (List.foldl (processVisitor db camp adm (effectiveType req camp) o)
        (⟨0, 0, [], []⟩ : RunAcc) (selectVisitors db req)).sent = _
    rw [foldl_processVisitor_sent db camp adm (effectiveType req camp) o
        (selectVisitors db req) ⟨0, 0, [], []⟩]
    simp

lemma serve_success (db : DB) (o : Oracles) (req : Request) (camp : Campaign)
    (adm : Admin) (h1 : findCampaign db req.campaignId = some camp)
    (h2 : findAdmin db camp.admin_id = some adm) :
    (serve db o req).success = true ∧ (serve db o req).error = none := by
  rw [serve_found db o req camp adm h1 h2]
  by_cases he : (selectVisitors db req).isEmpty
  · simp only [if_pos he]
    exact ⟨trivial, trivial⟩
  · simp only [if_neg he]
    exact ⟨trivial, trivial⟩

lemma serve_stored (db : DB) (o : Oracles) (req : Request) (camp : Campaign)
    (adm : Admin) (h1 : findCampaign db req.campaignId = some camp)
    (h2 : findAdmin db camp.admin_id = some adm) :
    (serve db o req).stored =
      (serve db o req).attempted.filter (fun l => o.logOk l.visitor_id l.message_type) := by
  rw [serve_found db o req camp adm h1 h2]
  by_cases he : (selectVisitors db req).isEmpty
  · simp only [if_pos he]
    rfl
  · simp only [if_neg he]

/-! ### Per-attempt facts -/

lemma emailAttempt_eq_some (db : DB) (camp : Campaign) (adm : Admin) (eff : String)
    (o : Oracles) (v : Visitor) (l : FollowUpLog)
    (h : emailAttempt db camp adm eff o v = some l) :
    l.visitor_id = v.id ∧ l.message_type = "email" ∧
      (l.status = "sent" ∨ l.status = "failed") := by
  unfold emailAttempt at h
  split at h
  · cases Option.some.inj h
    refine ⟨rfl, rfl, ?_⟩
    by_cases hok : o.emailOk v.id = true
    · left; simp [hok]
    · right; simp [Bool.eq_false_iff.mpr hok]
  · cases h

lemma smsAttempt_eq_some (db : DB) (camp : Campaign) (adm : Admin) (eff : String)
    (o : Oracles) (v : Visitor) (l : FollowUpLog)
    (h : smsAttempt db camp adm eff o v = some l) :
    l.visitor_id = v.id ∧ l.message_type = "sms" ∧
      (l.status = "sent" ∨ l.status = "failed") := by
  unfold smsAttempt at h
  split at h
  · cases Option.some.inj h
    refine ⟨rfl, rfl, ?_⟩
    by_cases hok : o.smsOk v.id = true
    · left; simp [hok]
    · right; simp [Bool.eq_false_iff.mpr hok]
  · cases h

lemma mem_visitorAttempts (db : DB) (camp : Campaign) (adm : Admin) (eff : String)
    (o : Oracles) (v : Visitor) (l : FollowUpLog)
    (hl : l ∈ visitorAttempts db camp adm eff o v) :
    emailAttempt db camp adm eff o v = some l ∨
      smsAttempt db camp adm eff o v = some l := by
  unfold visitorAttempts at hl
  rw [List.mem_append] at hl
  cases hl with
  | inl h => left; cases hm : emailAttempt db camp adm eff o v <;> rw [hm] at h <;>
      simp_all
  | inr h => right; cases hm : smsAttempt db camp adm eff o v <;> rw [hm] at h <;>
      simp_all

lemma visitorAttempts_fields (db : DB) (camp : Campaign) (adm : Admin) (eff : String)
    (o : Oracles) (v : Visitor) (l : FollowUpLog)
    (hl : l ∈ visitorAttempts db camp adm eff o v) :
    l.visitor_id = v.id ∧ (l.message_type = "email" ∨ l.message_type = "sms") ∧
      (l.status = "sent" ∨ l.status = "failed") := by
  cases mem_visitorAttempts db camp adm eff o v l hl with
  | inl h =>
    obtain ⟨a, b, c⟩ := emailAttempt_eq_some db camp adm eff o v l h
    exact ⟨a, Or.inl b, c⟩
  | inr h =>
    obtain ⟨a, b, c⟩ := smsAttempt_eq_some db camp adm eff o v l h
    exact ⟨a, Or.inr b, c⟩

lemma mem_selectVisitors (db : DB) (req : Request) (v : Visitor)
    (hv : v ∈ selectVisitors db req) :
    v ∈ db.visitors ∧ eligibleVisitor db req.campaignId req.propertyId v = true := by
  unfold selectVisitors at hv
  split at hv
  · split at hv
    · exact List.mem_filter.mp (List.mem_filter.mp hv).1
    · exact List.mem_filter.mp hv
  · exact List.mem_filter.mp hv

lemma mem_serve_attempted (db : DB) (o : Oracles) (req : Request) (l : FollowUpLog)
    (hl : l ∈ (serve db o req).attempted) :
    ∃ camp adm v, findCampaign db req.campaignId = some camp ∧
      findAdmin db camp.admin_id = some adm ∧
      v ∈ selectVisitors db req ∧
      l ∈ visitorAttempts db camp adm (effectiveType req camp) o v := by
  rcases h1 : findCampaign db req.campaignId with _ | camp
  · unfold serve at hl
    split at hl
    · simp at hl
    · next heq => rw [h1] at heq; cases heq
  · rcases h2 : findAdmin db camp.admin_id with _ | adm
    · unfold serve at hl
      split at hl
      · simp at hl
      · next camp' heq =>
          rw [h1] at heq
          cases Option.some.inj heq
          split at hl
          · simp at hl
          · next adm' heq2 => rw [h2] at heq2; cases heq2
    · rw [serve_attempted db o req camp adm h1 h2, List.mem_flatMap] at hl
      obtain ⟨v, hv, hlv⟩ := hl
      exact ⟨camp, adm, v, rfl, h2, hv, hlv⟩

/-! ### List helpers -/

lemma flatMap_nil_of_forall {α β : Type} :
    ∀ (l : List α) (f : α → List β), (∀ x ∈ l, f x = []) → l.flatMap f = [] := by
  intro l f
  induction l with
  | nil => intro _; rfl
  | cons x xs ih =>
    intro h
    rw [List.flatMap_cons, h x (List.mem_cons_self x xs),
        ih (fun y hy => h y (List.mem_cons_of_mem x hy))]
    rfl

lemma filter_flatMap_comm {α β : Type} (p : β → Bool) :
    ∀ (l : List α) (f : α → List β),
      (l.flatMap f).filter p = l.flatMap (fun a => (f a).filter p) := by
  intro l f
  induction l with
  | nil => rfl
  | cons x xs ih =>
    rw [List.flatMap_cons, List.flatMap_cons, List.filter_append, ih]

lemma flatMap_eq_of_key_unique {α β γ : Type} [DecidableEq γ] (key : α → γ) :
    ∀ (vs : List α) (g : α → List β) (v : α),
      (vs.map key).Nodup → v ∈ vs →
      (∀ v' ∈ vs, key v' ≠ key v → g v' = []) →
      vs.flatMap g = g v := by
  intro vs
  induction vs with
  | nil => intro g v _ hv; cases hv
  | cons w ws ih =>
    intro g v hnd hv hz
    rw [List.map_cons, List.nodup_cons] at hnd
    by_cases hk : key w = key v
    · have hvw : v = w := by
        rcases List.mem_cons.mp hv with h | h
        · exact h
        · refine absurd ?_ hnd.1
          rw [hk]
          exact List.mem_map_of_mem key h
      subst hvw
      have hws : ∀ w' ∈ ws, g w' = [] := by
        intro w' hw'
        apply hz w' (List.mem_cons_of_mem v hw')
        intro hkeq
        apply hnd.1
        rw [← hkeq]
        exact List.mem_map_of_mem key hw'
      rw [List.flatMap_cons, flatMap_nil_of_forall ws g hws, List.append_nil]
    · have hvws : v ∈ ws := by
        rcases List.mem_cons.mp hv with h | h
        · exact absurd (congrArg key h.symm) hk
        · exact h
      rw [List.flatMap_cons, hz w (List.mem_cons_self w ws) hk, List.nil_append]
      exact ih g v hnd.2 hvws (fun v' hv' => hz v' (List.mem_cons_of_mem w hv'))

/-! ### Eligibility lemmas -/

lemma hasNonFailedLog_iff (db : DB) (cid : Nat) (v : Visitor) :
    hasNonFailedLog db cid v = true ↔
      ∃ l ∈ db.logs, l.visitor_id = v.id ∧ l.campaign_id = some cid ∧
        l.status ≠ "failed" := by
  simp [hasNonFailedLog, List.any_eq_true, and_assoc]

lemma eligibleVisitor_true_iff (db : DB) (cid : Nat) (pid : Option Nat) (v : Visitor) :
    eligibleVisitor db cid pid v = true ↔
      (propertyParamPass pid v = true
       ∧ campaignPropertyPass (findCampaign db cid) v = true
       ∧ db.unsubscribes.any (unsubMatches v) = false
       ∧ triggerPass (findCampaign db cid) (findFeedback db v.id) = true
       ∧ hasNonFailedLog db cid v = false) := by
  simp [eligibleVisitor, Bool.and_eq_true, Bool.not_eq_true', and_assoc]

lemma eligibleVisitor_false_of_hasLog (db : DB) (cid : Nat) (pid : Option Nat)
    (v : Visitor) (h : hasNonFailedLog db cid v = true) :
    eligibleVisitor db cid pid v = false := by
  simp [eligibleVisitor, h]

/-! ### C1: duplicate-send suppression and retry -/

/-- C1: a visitor is excluded by the delivery-log conjunct of
`get_eligible_visitors` exactly when a non-`failed` log row for this
campaign exists; such a row makes the visitor ineligible; a prior `sent`
row means a re-run attempts no send (and writes no row) for that visitor;
and a visitor all of whose rows for the campaign are `failed` passes the
log conjunct, is eligible again whenever the other conjuncts hold, and is
re-attempted by the dispatcher. -/
theorem c1_log_suppression :
    (∀ (db : DB) (cid : Nat) (v : Visitor),
      hasNonFailedLog db cid v = true ↔
        ∃ l ∈ db.logs, l.visitor_id = v.id ∧ l.campaign_id = some cid ∧
          l.status ≠ "failed")
    ∧ (∀ (db : DB) (cid : Nat) (pid : Option Nat) (v : Visitor),
        hasNonFailedLog db cid v = true → eligibleVisitor db cid pid v = false)
    ∧ (∀ (db : DB) (o : Oracles) (req : Request) (vid : Nat),
        (∃ l0 ∈ db.logs, l0.visitor_id = vid ∧ l0.campaign_id = some req.campaignId ∧
          l0.status = "sent") →
        ∀ l ∈ (serve db o req).attempted, l.visitor_id ≠ vid)
    ∧ (∀ (db : DB) (cid : Nat) (pid : Option Nat) (v : Visitor),
        propertyParamPass pid v = true →
        campaignPropertyPass (findCampaign db cid) v = true →
        db.unsubscribes.any (unsubMatches v) = false →
        triggerPass (findCampaign db cid) (findFeedback db v.id) = true →
        (∀ l ∈ db.logs, l.visitor_id = v.id → l.campaign_id = some cid →
          l.status = "failed") →
        eligibleVisitor db cid pid v = true
        ∧ (v ∈ db.visitors → v ∈ get_eligible_visitors db cid pid))
    ∧ (∀ (db : DB) (o : Oracles) (req : Request) (camp : Campaign) (adm : Admin)
        (v : Visitor),
        findCampaign db req.campaignId = some camp →
        findAdmin db camp.admin_id = some adm →
        v ∈ selectVisitors db req →
        (effectiveType req camp = "email" ∨ effectiveType req camp = "both") →
        truthy v.email = true →
        ∃ l ∈ (serve db o req).attempted,
          l.visitor_id = v.id ∧ l.message_type = "email") := by
  refine ⟨hasNonFailedLog_iff, ?_, ?_, ?_, ?_⟩
  · intro db cid pid v h
    exact eligibleVisitor_false_of_hasLog db cid pid v h
  · rintro db o req vid ⟨l0, hl0, hvid, hcid, hst⟩ l hl hvl
    obtain ⟨camp, adm, v', h1, h2, hv', hlv'⟩ := mem_serve_attempted db o req l hl
    have helig := (mem_selectVisitors db req v' hv').2
    have hid := (visitorAttempts_fields db camp adm (effectiveType req camp) o v' l hlv').1
    have hlog : hasNonFailedLog db req.campaignId v' = true :=
      (hasNonFailedLog_iff db req.campaignId v').mpr
        ⟨l0, hl0, by rw [hvid, ← hvl, hid], hcid, by rw [hst]; decide⟩
    rw [eligibleVisitor_false_of_hasLog db req.campaignId req.propertyId v' hlog] at helig
    cases helig
  · intro db cid pid v h1 h2 h3 h4 h5
    have hlog : hasNonFailedLog db cid v = false := by
      cases hcase : hasNonFailedLog db cid v
      · rfl
      · obtain ⟨l, hl, hvid, hcid, hstat⟩ := (hasNonFailedLog_iff db cid v).mp hcase
        exact absurd (h5 l hl hvid hcid) hstat
    have helig := (eligibleVisitor_true_iff db cid pid v).mpr ⟨h1, h2, h3, h4, hlog⟩
    exact ⟨helig, fun hmem => List.mem_filter.mpr ⟨hmem, helig⟩⟩
  · intro db o req camp adm v h1 h2 hv heff hemail
    have hcond : ((effectiveType req camp == "email"
        || effectiveType req camp == "both") && truthy v.email) = true := by
      cases heff with
      | inl h => simp [h, hemail]
      | inr h => simp [h, hemail]
    obtain ⟨e, he⟩ : ∃ e,
        emailAttempt db camp adm (effectiveType req camp) o v = some e := by
      unfold emailAttempt
      rw [if_pos hcond]
      exact ⟨_, rfl⟩
    obtain ⟨hid, hty, _⟩ :=
      emailAttempt_eq_some db camp adm (effectiveType req camp) o v e he
    refine ⟨e, ?_, hid, hty⟩
    rw [serve_attempted db o req camp adm h1 h2, List.mem_flatMap]
    refine ⟨v, hv, ?_⟩
    unfold visitorAttempts
    rw [he]
    exact List.mem_append_left _ (List.mem_singleton.mpr rfl)

/-- Witness for C1 at a one-visitor store: with a prior `sent` row the
visitor is ineligible and a re-run attempts nothing; with only a `failed`
row the visitor is eligible again and a re-run attempts a new email. -/
theorem c1_witness :
    (hasNonFailedLog c1DbSent 5 vAnn = true ↔
      ∃ l ∈ c1DbSent.logs, l.visitor_id = vAnn.id ∧ l.campaign_id = some 5 ∧
        l.status ≠ "failed")
    ∧ eligibleVisitor c1DbSent 5 none vAnn = false
    ∧ (∀ l ∈ (serve c1DbSent oracleOk reqAuto).attempted, l.visitor_id ≠ 1)
    ∧ eligibleVisitor c1DbFailed 5 none vAnn = true
    ∧ vAnn ∈ get_eligible_visitors c1DbFailed 5 none
    ∧ ∃ l ∈ (serve c1DbFailed oracleOk reqAuto).attempted,
        l.visitor_id = vAnn.id ∧ l.message_type = "email" :=
  ⟨c1_log_suppression.1 c1DbSent 5 vAnn,
   c1_log_suppression.2.1 c1DbSent 5 none vAnn (by decide),
   c1_log_suppression.2.2.1 c1DbSent oracleOk reqAuto 1
     ⟨logSentAnn, by decide, by decide, by decide, by decide⟩,
   (c1_log_suppression.2.2.2.1 c1DbFailed 5 none vAnn (by decide) (by decide)
     (by decide) (by decide) (by decide)).1,
   (c1_log_suppression.2.2.2.1 c1DbFailed 5 none vAnn (by decide) (by decide)
     (by decide) (by decide) (by decide)).2 (by decide),
   c1_log_suppression.2.2.2.2 c1DbFailed oracleOk reqAuto campBoth admAl vAnn
     (by decide) (by decide) (by decide) (Or.inr (by decide)) (by decide)⟩

/-! ### C2: unsubscribe suppression -/

lemma findCampaign_setMessageType (db : DB) (cid : Nat) (mt : String) :
    findCampaign (setMessageType db cid mt) cid =
      (findCampaign db cid).map (fun c => { c with message_type := mt }) := by
  unfold findCampaign setMessageType
  rw [List.find?_map]
  have hpred : (fun c : Campaign =>
      ((if c.id == cid then { c with message_type := mt } else c).id == cid))
      = (fun c : Campaign => (c.id == cid)) := by
    funext c
    split <;> rfl
  rw [show ((fun c : Campaign => c.id == cid) ∘
      (fun c : Campaign => if c.id == cid then { c with message_type := mt } else c))
      = (fun c : Campaign => (c.id == cid)) from hpred]
  cases hfind : db.campaigns.find? (fun c => c.id == cid) with
  | none => rfl
  | some c =>
    have hc := List.find?_some hfind
    have hceq : c.id = cid := by simpa using hc
    simp [hc]
    intro h
    exact absurd hceq h

lemma eligibleVisitor_setMessageType (db : DB) (cid : Nat) (mt : String)
    (pid : Option Nat) (v : Visitor) :
    eligibleVisitor (setMessageType db cid mt) cid pid v =
      eligibleVisitor db cid pid v := by
  unfold eligibleVisitor
  rw [findCampaign_setMessageType db cid mt]
  cases hc : findCampaign db cid <;> rfl

/-- C2 (amended): unsubscribe suppression in `get_eligible_visitors` is NOT
channel-specific: any unsubscribe row matching the visitor (email match
with type `email`/`both`, or phone match with type `sms`/`both`) removes
the visitor from the eligible set of every campaign, and eligibility is
entirely independent of the campaign's `message_type`. -/
theorem c2_unsubscribe_suppression_channel_independent :
    (∀ (db : DB) (cid : Nat) (pid : Option Nat) (v : Visitor),
      db.unsubscribes.any (unsubMatches v) = true →
      eligibleVisitor db cid pid v = false)
    ∧ (∀ (db : DB) (cid : Nat) (pid : Option Nat) (v : Visitor) (mt : String),
      eligibleVisitor (setMessageType db cid mt) cid pid v =
        eligibleVisitor db cid pid v)
    ∧ (∀ (db : DB) (cid : Nat) (v : Visitor) (u : Unsubscribe),
      u ∈ db.unsubscribes → unsubMatches v u = true →
      ∀ pid, eligibleVisitor db cid pid v = false) := by
  refine ⟨?_, ?_, ?_⟩
  · intro db cid pid v h
    simp [eligibleVisitor, h]
  · intro db cid pid v mt
    exact eligibleVisitor_setMessageType db cid mt pid v
  · intro db cid v u hu hm pid
    have h : db.unsubscribes.any (unsubMatches v) = true :=
      List.any_eq_true.mpr ⟨u, hu, hm⟩
    simp [eligibleVisitor, h]

/-- C2 counterexample: Ann has only an `email`-type unsubscribe; the code
excludes her from an sms-only campaign (which requires no email), and from
a `both` campaign entirely — the dispatcher attempts no sms to her even
though she has a phone and no sms unsubscribe.  Removing the unsubscribe
row makes her eligible, so the email unsubscribe is the cause. -/
theorem c2_channel_specific_counterexample :
    eligibleVisitor c2DbSms 5 none vAnn = false
    ∧ campSmsOnly.message_type = "sms"
    ∧ eligibleVisitor c2DbBoth 5 none vAnn = false
    ∧ (serve c2DbBoth oracleOk reqAuto).attempted = []
    ∧ eligibleVisitor dbPlain 5 none vAnn = true
    ∧ truthy vAnn.phone = true
    ∧ campBoth.message_type = "both"
    ∧ (∀ u ∈ c2DbSms.unsubscribes, u.unsubscribe_type = "email") := by
  refine ⟨?_, ?_, ?_, ?_, ?_, ?_, ?_, ?_⟩ <;> decide

/-- Witness for C2 (amended) at concrete stores. -/
theorem c2_witness :
    eligibleVisitor c2DbBoth 5 none vAnn = false
    ∧ eligibleVisitor (setMessageType dbPlain 5 "sms") 5 none vAnn =
        eligibleVisitor dbPlain 5 none vAnn
    ∧ eligibleVisitor c2DbSms 5 none vAnn = false :=
  ⟨c2_unsubscribe_suppression_channel_independent.1 c2DbBoth 5 none vAnn (by decide),
   c2_unsubscribe_suppression_channel_independent.2.1 dbPlain 5 none vAnn "sms",
   c2_unsubscribe_suppression_channel_independent.2.2 c2DbSms 5 vAnn unsubEmailAnn
     (by decide) (by decide) none⟩

/-! ### C3: trigger-condition filter -/

lemma triggerPass_interested (c : Campaign) (f : Option Feedback)
    (h : c.trigger_condition = "interested") :
    triggerPass (some c) f =
      (match f with
       | some fb => fb.interested == some true
       | none => false) := by
  cases f with
  | none => simp [triggerPass, h]
  | some fb =>
    cases hfb : fb.interested with
    | none => simp [triggerPass, h, hfb]
    | some b => cases b <;> simp [triggerPass, h, hfb]

lemma triggerPass_no_feedback (c : Campaign) (f : Option Feedback)
    (h : c.trigger_condition = "no_feedback") :
    triggerPass (some c) f = f.isNone := by
  simp [triggerPass, h]

lemma triggerPass_all (c : Campaign) (f : Option Feedback)
    (h : c.trigger_condition = "all") :
    triggerPass (some c) f = true := by
  simp [triggerPass, h]

lemma triggerPass_manual (c : Campaign) (f : Option Feedback)
    (h : c.trigger_condition = "manual") :
    triggerPass (some c) f = true := by
  simp [triggerPass, h]

/-- C3: the trigger-condition `CASE` of `get_eligible_visitors` passes an
`interested` campaign exactly for visitors whose feedback row exists with
`interested = true`, a `no_feedback` campaign exactly for visitors with no
feedback row, and `all`/`manual` campaigns for every visitor; and the
eligibility predicate is the conjunction of property scoping, unsubscribe
suppression, the trigger filter and duplicate-send suppression, so before
unsubscribe and duplicate suppression the trigger filter is exactly as
described. -/
theorem c3_trigger_filter_correct :
    (∀ (c : Campaign) (f : Option Feedback),
      (c.trigger_condition = "interested" →
        (triggerPass (some c) f = true ↔
          ∃ fb, f = some fb ∧ fb.interested = some true))
      ∧ (c.trigger_condition = "no_feedback" →
        (triggerPass (some c) f = true ↔ f = none))
      ∧ (c.trigger_condition = "all" → triggerPass (some c) f = true)
      ∧ (c.trigger_condition = "manual" → triggerPass (some c) f = true))
    ∧ (∀ (db : DB) (cid : Nat) (pid : Option Nat) (v : Visitor),
        eligibleVisitor db cid pid v = true ↔
          (propertyParamPass pid v = true
           ∧ campaignPropertyPass (findCampaign db cid) v = true
           ∧ db.unsubscribes.any (unsubMatches v) = false
           ∧ triggerPass (findCampaign db cid) (findFeedback db v.id) = true
           ∧ hasNonFailedLog db cid v = false))
    ∧ (∀ (db : DB) (cid : Nat) (pid : Option Nat) (c : Campaign),
        findCampaign db cid = some c → c.trigger_condition = "interested" →
        db.visitors.filter (fun v => propertyParamPass pid v
            && campaignPropertyPass (some c) v
            && triggerPass (some c) (findFeedback db v.id)) =
          db.visitors.filter (fun v => propertyParamPass pid v
            && campaignPropertyPass (some c) v
            && (match findFeedback db v.id with
                | some fb => fb.interested == some true
                | none => false))) := by
  refine ⟨?_, eligibleVisitor_true_iff, ?_⟩
  · intro c f
    refine ⟨?_, ?_, triggerPass_all c f, triggerPass_manual c f⟩
    · intro h
      rw [triggerPass_interested c f h]
      cases f with
      | none => simp
      | some fb =>
        cases hfb : fb.interested with
        | none => simp [hfb]
        | some b => cases b <;> simp [hfb]
    · intro h
      rw [triggerPass_no_feedback c f h]
      cases f <;> simp
  · intro db cid pid c _ htc
    apply List.filter_congr
    intro v _
    rw [triggerPass_interested c (findFeedback db v.id) htc]

/-- Witness for C3 at a store with an `interested` campaign, one visitor
with interested feedback and one with none. -/
theorem c3_witness :
    (campInterested.trigger_condition = "interested" →
      (triggerPass (some campInterested) (findFeedback c3Db 1) = true ↔
        ∃ fb, findFeedback c3Db 1 = some fb ∧ fb.interested = some true))
    ∧ (eligibleVisitor c3Db 5 none vAnn = true ↔
        (propertyParamPass none vAnn = true
         ∧ campaignPropertyPass (findCampaign c3Db 5) vAnn = true
         ∧ c3Db.unsubscribes.any (unsubMatches vAnn) = false
         ∧ triggerPass (findCampaign c3Db 5) (findFeedback c3Db vAnn.id) = true
         ∧ hasNonFailedLog c3Db 5 vAnn = false))
    ∧ c3Db.visitors.filter (fun v => propertyParamPass none v
          && campaignPropertyPass (some campInterested) v
          && triggerPass (some campInterested) (findFeedback c3Db v.id)) =
        c3Db.visitors.filter (fun v => propertyParamPass none v
          && campaignPropertyPass (some campInterested) v
          && (match findFeedback c3Db v.id with
              | some fb => fb.interested == some true
              | none => false)) :=
  ⟨(c3_trigger_filter_correct.1 campInterested (findFeedback c3Db 1)).1,
   c3_trigger_filter_correct.2.1 c3Db 5 none vAnn,
   c3_trigger_filter_correct.2.2 c3Db 5 none campInterested (by decide) (by decide)⟩

/-! ### C5: explicit visitor-id narrowing -/

lemma selectVisitors_some (db : DB) (req : Request) (ids : List Nat)
    (hids : req.visitorIds = some ids) (hlen : 0 < ids.length) :
    selectVisitors db req =
      (get_eligible_visitors db req.campaignId req.propertyId).filter
        (fun v => ids.contains v.id) := by
  unfold selectVisitors
  split
  · next ids' heq =>
    rw [hids] at heq
    cases Option.some.inj heq
    rw [if_pos hlen]
  · next heq => rw [hids] at heq; cases heq

/-- C5 counterexample: an explicitly supplied EMPTY id set does not narrow
the dispatch to nothing — the handler's `visitorIds && visitorIds.length >
0` guard treats it like no selection at all and dispatches to the full
eligible set. -/
theorem c5_empty_ids_counterexample :
    selectVisitors c5Db ⟨5, some [], none, none⟩ = [vAnn, vBob, vCarol]
    ∧ (serve c5Db oracleOk ⟨5, some [], none, none⟩).attempted ≠ []
    ∧ (serve c5Db oracleOk ⟨5, some [], none, none⟩).sent = 6 := by
  refine ⟨?_, ?_, ?_⟩ <;> decide

/-- C5 (amended): when `explicitVisitorIds` is supplied and NON-EMPTY, the
dispatched visitor set is exactly the intersection of the naturally
eligible set with the supplied ids — explicit selection narrows, never
widens — and every attempted log row belongs to a supplied id.  (When the
supplied set is empty or absent, the full eligible set is used instead.) -/
theorem c5_nonempty_ids_narrow :
    ∀ (db : DB) (o : Oracles) (req : Request) (ids : List Nat),
      req.visitorIds = some ids → ids ≠ [] →
      (∀ v : Visitor, v ∈ selectVisitors db req ↔
        (v ∈ get_eligible_visitors db req.campaignId req.propertyId ∧ v.id ∈ ids))
      ∧ (∀ l ∈ (serve db o req).attempted, l.visitor_id ∈ ids) := by
  intro db o req ids hids hne
  have hlen : 0 < ids.length := List.length_pos.mpr hne
  have hsel := selectVisitors_some db req ids hids hlen
  have hmem : ∀ v : Visitor, v ∈ selectVisitors db req ↔
      (v ∈ get_eligible_visitors db req.campaignId req.propertyId ∧ v.id ∈ ids) := by
    intro v
    rw [hsel, List.mem_filter]
    constructor
    · rintro ⟨hv, hc⟩
      exact ⟨hv, by simpa [List.contains, List.elem_iff] using hc⟩
    · rintro ⟨hv, hc⟩
      exact ⟨hv, by simpa [List.contains, List.elem_iff] using hc⟩
  refine ⟨hmem, ?_⟩
  intro l hl
  obtain ⟨camp, adm, v, _, _, hv, hlv⟩ := mem_serve_attempted db o req l hl
  have hid := (visitorAttempts_fields db camp adm (effectiveType req camp) o v l hlv).1
  rw [hid]
  exact ((hmem v).mp hv).2

/-- Witness for C5 (amended): selecting ids `[1]` from a three-visitor
eligible pool dispatches only to visitor 1. -/
theorem c5_witness :
    (∀ v : Visitor, v ∈ selectVisitors c5Db ⟨5, some [1], none, none⟩ ↔
      (v ∈ get_eligible_visitors c5Db 5 none ∧ v.id ∈ [1]))
    ∧ (∀ l ∈ (serve c5Db oracleOk ⟨5, some [1], none, none⟩).attempted,
        l.visitor_id ∈ [1]) :=
  c5_nonempty_ids_narrow c5Db oracleOk ⟨5, some [1], none, none⟩ [1] rfl (by decide)

/-! ### C6: the per-visitor template variable mapping -/

/-- C6: the handler's `templateVariables` object contains only six
variables (visitor_name, property_name, property_address, admin_name,
admin_email, admin_phone); `visitor_email`, `visitor_phone`, `visit_date`,
`feedback_rating`, `feedback_comments` and `interested` are advertised by
`AVAILABLE_TEMPLATE_VARIABLES` but never supplied, so a template using
`\x7b\x7bvisitor_email\x7d\x7d` is sent with the placeholder left as literal text
instead of the visitor's email address. -/
theorem c6_template_mapping_missing_variables :
    (templateVars c6Db admAl vAnn).map Prod.fst =
      ["visitor_name", "property_name", "property_address",
       "admin_name", "admin_email", "admin_phone"]
    ∧ "visitor_email" ∈ AVAILABLE_TEMPLATE_VARIABLES
    ∧ "visitor_email" ∉ (templateVars c6Db admAl vAnn).map Prod.fst
    ∧ vAnn.email = some "ann@x.com"
    ∧ (serve c6Db oracleOk reqAuto).attempted.map (fun l => l.message_content) =
        [patStr "visitor_email"]
    ∧ patStr "visitor_email" ≠ "ann@x.com"
    ∧ patStr "visitor_email" ≠ "" := by
  refine ⟨?_, ?_, ?_, ?_, ?_, ?_, ?_⟩ <;> decide

/-! ### C7: per-channel skip for missing contact info -/

lemma selectVisitors_sublist (db : DB) (req : Request) :
    List.Sublist (selectVisitors db req) db.visitors := by
  unfold selectVisitors get_eligible_visitors
  split
  · split
    · exact (List.filter_sublist _).trans (List.filter_sublist _)
    · exact List.filter_sublist _
  · exact List.filter_sublist _

/-- C7: on a `both`-type dispatch, a selected visitor with a (truthy)
email whose sms channel is unusable — no usable phone, or no usable sms
template on the campaign — gives rise to exactly one attempted log row:
an email row with status `sent` or `failed`, and no sms row at all.  The
missing phone or missing sms template silently skips the sms channel
rather than producing a `failed` sms entry, so it contributes to neither
counter for that channel. -/
theorem c7_partial_channel_independence :
    ∀ (db : DB) (o : Oracles) (req : Request) (camp : Campaign) (adm : Admin)
      (v : Visitor),
      findCampaign db req.campaignId = some camp →
      findAdmin db camp.admin_id = some adm →
      effectiveType req camp = "both" →
      (db.visitors.map Visitor.id).Nodup →
      v ∈ selectVisitors db req →
      truthy v.email = true →
      (truthy v.phone = false ∨ truthy camp.sms_template = false) →
      ∃ e, (serve db o req).attempted.filter (fun l => l.visitor_id == v.id) = [e]
        ∧ e.message_type = "email"
        ∧ (e.status = "sent" ∨ e.status = "failed")
        ∧ ∀ l ∈ (serve db o req).attempted,
            l.message_type = "sms" → l.visitor_id ≠ v.id := by
  intro db o req camp adm v h1 h2 heff hnd hv hemail hskip
  have hsms : smsAttempt db camp adm (effectiveType req camp) o v = none := by
    cases hskip with
    | inl hphone => simp [smsAttempt, hphone]
    | inr htpl => simp [smsAttempt, htpl]
  have hcond : ((effectiveType req camp == "email" || effectiveType req camp == "both")
      && truthy v.email) = true := by simp [heff, hemail]
  obtain ⟨e, he⟩ : ∃ e,
      emailAttempt db camp adm (effectiveType req camp) o v = some e := by
    unfold emailAttempt
    rw [if_pos hcond]
    exact ⟨_, rfl⟩
  obtain ⟨hid, hty, hst⟩ :=
    emailAttempt_eq_some db camp adm (effectiveType req camp) o v e he
  have hatt : visitorAttempts db camp adm (effectiveType req camp) o v = [e] := by
    unfold visitorAttempts
    rw [he, hsms]
    rfl
  have hnd' : ((selectVisitors db req).map Visitor.id).Nodup :=
    hnd.sublist ((selectVisitors_sublist db req).map Visitor.id)
  have hserve := serve_attempted db o req camp adm h1 h2
  have hfil : (serve db o req).attempted.filter (fun l => l.visitor_id == v.id) =
      [e] := by
    rw [hserve, filter_flatMap_comm,
        flatMap_eq_of_key_unique Visitor.id (selectVisitors db req) _ v hnd' hv ?hz,
        hatt]
    · simp [List.filter, hid]
    case hz =>
      intro v' hv' hne
      apply List.filter_eq_nil.mpr
      intro l hl
      have hlid :=
        (visitorAttempts_fields db camp adm (effectiveType req camp) o v' l hl).1
      simp only [hlid, beq_iff_eq]
      exact hne
  refine ⟨e, hfil, hty, hst, ?_⟩
  intro l hl hlsms hlid
  have hmem : l ∈ (serve db o req).attempted.filter (fun l => l.visitor_id == v.id) :=
    List.mem_filter.mpr ⟨hl, by simp [hlid]⟩
  rw [hfil] at hmem
  have hle : l = e := List.mem_singleton.mp hmem
  rw [hle, hty] at hlsms
  exact absurd hlsms (by decide)

/-- Witness for C7, both skip causes: Ann-without-phone under the `both`
campaign, and Ann-with-phone under a `both` campaign lacking an sms
template; each gets exactly one email row and no sms row. -/
theorem c7_witness :
    (∃ e, (serve c7Db oracleOk reqAuto).attempted.filter
          (fun l => l.visitor_id == vNoPhone.id) = [e]
      ∧ e.message_type = "email"
      ∧ (e.status = "sent" ∨ e.status = "failed")
      ∧ ∀ l ∈ (serve c7Db oracleOk reqAuto).attempted,
          l.message_type = "sms" → l.visitor_id ≠ vNoPhone.id)
    ∧ ∃ e, (serve c7DbNoSmsTpl oracleOk reqAuto).attempted.filter
          (fun l => l.visitor_id == vAnn.id) = [e]
      ∧ e.message_type = "email"
      ∧ (e.status = "sent" ∨ e.status = "failed")
      ∧ ∀ l ∈ (serve c7DbNoSmsTpl oracleOk reqAuto).attempted,
          l.message_type = "sms" → l.visitor_id ≠ vAnn.id :=
  ⟨c7_partial_channel_independence c7Db oracleOk reqAuto campBoth admAl vNoPhone
     (by decide) (by decide) (by decide) (by decide) (by decide) (by decide)
     (Or.inl (by decide)),
   c7_partial_channel_independence c7DbNoSmsTpl oracleOk reqAuto campBothNoSms admAl
     vAnn (by decide) (by decide) (by decide) (by decide) (by decide) (by decide)
     (Or.inr (by decide))⟩

/-! ### C8: behavior on invalid configuration -/

lemma foldl_replace_nil :
    ∀ (vmap : List (String × Option String)),
      vmap.foldl
        (fun acc kv => replaceAll acc (varPattern kv.1) (kv.2.getD "").toList)
        [] = [] := by
  intro vmap
  induction vmap with
  | nil => rfl
  | cons kv rest ih =>
    rw [List.foldl_cons]
    exact ih

lemma replaceTemplateVariables_empty (vmap : List (String × Option String)) :
    replaceTemplateVariables "" vmap = "" := by
  unfold replaceTemplateVariables
  rw [show ("" : String).toList = [] from rfl, foldl_replace_nil]

/-- C8 (amended): dispatch never fails with an InvalidConfiguration error.
A campaign whose `trigger_condition` is outside
interested/no_feedback/all/manual falls into the `ELSE false` arm, so its
eligible set is empty and the handler reports success with nothing sent;
a campaign found together with its admin always yields a `success: true`
response; and a campaign whose email subject and template are missing is
still dispatched, with the subject and body rendered as the empty string
(`campaign.email_subject || ''` / `campaign.email_template || ''`). -/
theorem c8_defensive_behavior :
    (∀ (db : DB) (cid : Nat) (pid : Option Nat) (c : Campaign),
      findCampaign db cid = some c →
      c.trigger_condition ≠ "interested" → c.trigger_condition ≠ "no_feedback" →
      c.trigger_condition ≠ "all" → c.trigger_condition ≠ "manual" →
      (∀ v, eligibleVisitor db cid pid v = false)
      ∧ get_eligible_visitors db cid pid = [])
    ∧ (∀ (db : DB) (o : Oracles) (req : Request) (camp : Campaign) (adm : Admin),
        findCampaign db req.campaignId = some camp →
        findAdmin db camp.admin_id = some adm →
        (serve db o req).success = true ∧ (serve db o req).error = none)
    ∧ (∀ (db : DB) (camp : Campaign) (adm : Admin) (eff : String) (o : Oracles)
        (v : Visitor) (e : FollowUpLog),
        camp.email_subject = none → camp.email_template = none →
        emailAttempt db camp adm eff o v = some e →
        e.subject = some "" ∧ e.message_content = "") := by
  refine ⟨?_, ?_, ?_⟩
  · intro db cid pid c hc h1 h2 h3 h4
    have htp : ∀ f, triggerPass (some c) f = false := by
      intro f
      simp [triggerPass, h1, h2, h3, h4]
    have helig : ∀ v, eligibleVisitor db cid pid v = false := by
      intro v
      simp [eligibleVisitor, hc, htp (findFeedback db v.id)]
    refine ⟨helig, ?_⟩
    unfold get_eligible_visitors
    apply List.filter_eq_nil.mpr
    intro v _
    simp [helig v]
  · intro db o req camp adm h1 h2
    exact serve_success db o req camp adm h1 h2
  · intro db camp adm eff o v e hsubj htpl he
    unfold emailAttempt at he
    split at he
    · cases Option.some.inj he
      constructor
      · simp [hsubj, replaceTemplateVariables_empty]
      · simp [htpl, replaceTemplateVariables_empty]
    · cases he

/-- C8 counterexample: on a campaign with trigger_condition `bogus` the
handler returns success (`No eligible visitors found`, zero sent) rather
than an InvalidConfiguration error; on an email campaign with no subject
and no template it proceeds and sends one empty-subject, empty-bodied
message. -/
theorem c8_no_invalid_configuration_counterexample :
    (serve c8DbBogus oracleOk reqAuto).success = true
    ∧ (serve c8DbBogus oracleOk reqAuto).error = none
    ∧ (serve c8DbBogus oracleOk reqAuto).sent = 0
    ∧ (serve c8DbBogus oracleOk reqAuto).message = some "No eligible visitors found"
    ∧ (serve c8DbNoTpl oracleOk reqAuto).success = true
    ∧ (serve c8DbNoTpl oracleOk reqAuto).error = none
    ∧ (serve c8DbNoTpl oracleOk reqAuto).sent = 1
    ∧ (serve c8DbNoTpl oracleOk reqAuto).attempted.map
        (fun l => (l.subject, l.message_content)) = [(some "", "")] := by
  refine ⟨?_, ?_, ?_, ?_, ?_, ?_, ?_, ?_⟩ <;> decide

/-- Witness for C8 (amended) at the `bogus`-trigger and missing-template
stores. -/
theorem c8_witness :
    ((∀ v, eligibleVisitor c8DbBogus 5 none v = false)
      ∧ get_eligible_visitors c8DbBogus 5 none = [])
    ∧ ((serve c8DbBogus oracleOk reqAuto).success = true
      ∧ (serve c8DbBogus oracleOk reqAuto).error = none)
    ∧ (c8LogEmpty.subject = some "" ∧ c8LogEmpty.message_content = "") :=
  ⟨c8_defensive_behavior.1 c8DbBogus 5 none campBogus (by decide) (by decide)
     (by decide) (by decide) (by decide),
   c8_defensive_behavior.2.1 c8DbBogus oracleOk reqAuto campBogus admAl
     (by decide) (by decide),
   c8_defensive_behavior.2.2 c8DbNoTpl campNoTpl admAl "email" oracleOk vAnn
     c8LogEmpty (by decide) (by decide) (by decide)⟩

/-! ### C10: delivery-log write failures are ignored -/

/-- C10: `logFollowUp` only logs an insert error to the console, so a
failed delivery-log write changes nothing else: the run still reports
success, the transport-successful message is still counted as sent, no
row for that visitor is stored, and — because no non-`failed` row was
recorded — a visitor who was eligible stays eligible on the next run,
open to a duplicate send. -/
theorem c10_log_write_failure_ignored :
    ∀ (db : DB) (o : Oracles) (req : Request) (camp : Campaign) (adm : Admin)
      (v : Visitor) (e : FollowUpLog) (pid : Option Nat),
      findCampaign db req.campaignId = some camp →
      findAdmin db camp.admin_id = some adm →
      v ∈ selectVisitors db req →
      emailAttempt db camp adm (effectiveType req camp) o v = some e →
      e.status = "sent" →
      o.logOk v.id "email" = false →
      o.logOk v.id "sms" = false →
      (serve db o req).success = true
      ∧ e ∈ (serve db o req).attempted
      ∧ 1 ≤ (serve db o req).sent
      ∧ (∀ l ∈ (serve db o req).stored, l.visitor_id ≠ v.id)
      ∧ (eligibleVisitor db req.campaignId pid v = true →
          eligibleVisitor (dbAfter db o req) req.campaignId pid v = true) := by
  intro db o req camp adm v e pid h1 h2 hv he hst hle hls
  have hsucc := (serve_success db o req camp adm h1 h2).1
  have hmem : e ∈ (serve db o req).attempted := by
    rw [serve_attempted db o req camp adm h1 h2, List.mem_flatMap]
    refine ⟨v, hv, ?_⟩
    unfold visitorAttempts
    rw [he]
    exact List.mem_append_left _ (List.mem_singleton.mpr rfl)
  have hsent : 1 ≤ (serve db o req).sent := by
    rw [serve_sent_eq db o req camp adm h1 h2]
    have : e ∈ (serve db o req).attempted.filter (fun l => l.status == "sent") :=
      List.mem_filter.mpr ⟨hmem, by simp [hst]⟩
    exact List.length_pos.mpr (List.ne_nil_of_mem this)
  have hstored : ∀ l ∈ (serve db o req).stored, l.visitor_id ≠ v.id := by
    intro l hl hlid
    rw [serve_stored db o req camp adm h1 h2] at hl
    obtain ⟨hlatt, hlok⟩ := List.mem_filter.mp hl
    obtain ⟨camp', adm', v', h1', h2', hv', hlv'⟩ :=
      mem_serve_attempted db o req l hlatt
    rcases (visitorAttempts_fields db camp' adm' (effectiveType req camp') o v' l
        hlv').2.1 with hty | hty
    · rw [hlid, hty, hle] at hlok
      cases hlok
    · rw [hlid, hty, hls] at hlok
      cases hlok
  refine ⟨hsucc, hmem, hsent, hstored, ?_⟩
  intro helig
  rw [eligibleVisitor_true_iff] at helig
  obtain ⟨p1, p2, p3, p4, p5⟩ := helig
  rw [eligibleVisitor_true_iff]
  refine ⟨p1, p2, p3, p4, ?_⟩
  show ((dbAfter db o req).logs.any _) = false
  have hlogs : (dbAfter db o req).logs = db.logs ++ (serve db o req).stored := rfl
  rw [hlogs, List.any_append]
  have hdb : db.logs.any (fun l =>
      l.visitor_id == v.id && l.campaign_id == some req.campaignId
        && !(l.status == "failed")) = false := p5
  rw [hdb]
  rw [Bool.false_or]
  apply List.any_eq_false.mpr
  intro l hl
  simp only [Bool.and_eq_true, beq_iff_eq, Bool.not_eq_true', not_and]
  intro hconj
  exact (hstored l hl hconj.1).elim

/-- Witness for C10: all transports succeed but every log insert fails;
the run reports success with the email counted sent, stores nothing, and
Ann is still eligible afterwards. -/
theorem c10_witness :
    (serve dbPlain oracleLogFail reqAuto).success = true
    ∧ c10LogSent ∈ (serve dbPlain oracleLogFail reqAuto).attempted
    ∧ 1 ≤ (serve dbPlain oracleLogFail reqAuto).sent
    ∧ (∀ l ∈ (serve dbPlain oracleLogFail reqAuto).stored, l.visitor_id ≠ vAnn.id)
    ∧ (eligibleVisitor dbPlain 5 none vAnn = true →
        eligibleVisitor (dbAfter dbPlain oracleLogFail reqAuto) 5 none vAnn = true) :=
  c10_log_write_failure_ignored dbPlain oracleLogFail reqAuto campBoth admAl vAnn
    c10LogSent none (by decide) (by decide) (by decide) (by decide) (by decide)
    (by decide) (by decide)

end OHD
